import Mathlib

/- Shallow embedding of the invoice financial normalization and computation
   engine of the `invoicesbackend` repository (calc.ts, invoiceExports.ts,
   HistoryPage.tsx, and the pdf service of services/s3.ts).

   Modelling conventions:
   * JavaScript numbers are exact rationals (`ℚ`).  A field of a loosely
     typed record is `Option ℚ`: `none` stands for a field that is missing
     or `null` (both are skipped by a `??` chain); `some q` is a present
     value whose `Number(...)` coercion is the finite rational `q`.
   * `Math.round(x*100)/100` and `+x.toFixed(2)` both round to the nearest
     multiple of 1/100 with ties toward +∞; both are modelled by `round2`.
   * JS truthiness of a number is `x ≠ 0`; short-circuit `a || b` on
     numbers is `if a ≠ 0 then a else b`.
   * Strings are handled character by character on `List Char`; ASCII
     lower-casing models `toLowerCase`, which the engine only applies to
     ASCII identifiers and invoice numbers. -/

namespace Invoices

/-- JS Math.round(v * 100) / 100 (and +x.toFixed(2)): round to two decimal
places, ties toward +∞, over exact rationals. -/
def round2 (v : ℚ) : ℚ := (⌊v * 100 + 1/2⌋ : ℚ) / 100

/-- The num(v, d) helper shared by calc.ts / invoiceExports.ts /
HistoryPage.tsx: Number(v) when present and finite, else the default d. -/
def numF (v : Option ℚ) (d : ℚ) : ℚ := v.getD d

/-- The pct(v) helper of calc.ts: Number(v) when present and finite, else 0. -/
def pctF (v : Option ℚ) : ℚ := v.getD 0

/- ------------------------------------------------------------------ -/
/- calc.ts : the per-line amount calculator                            -/
/- ------------------------------------------------------------------ -/

/-- The SERVICE_TYPES string union of calc.ts. -/
inductive ServiceType where
  | FLIGHTS | HOTELS | HOLIDAYS | VISAS | MICE
  | STATIONERY | GIFT_ITEMS | GOODIES | OTHER
deriving DecidableEq

/-- The numeric fields of a line-item details record that computeLineParts
reads, plus discount (which line-item records may carry but which
computeLineParts never reads: calc.ts accesses exactly the other 28 keys;
the hotel/flight discount subtraction happens only in the export-time
computeAmounts of invoiceExports.ts). -/
structure LineDetails where
  fare : Option ℚ
  tax : Option ℚ
  taxPct : Option ℚ
  serviceCharges : Option ℚ
  servicePct : Option ℚ
  otTax : Option ℚ
  k3gst : Option ℚ
  yqTax : Option ℚ
  yrTax : Option ℚ
  bagCharges : Option ℚ
  mealCharges : Option ℚ
  seatCharges : Option ℚ
  spServiceCharges : Option ℚ
  globalPrCharges : Option ℚ
  rooms : Option ℚ
  nights : Option ℚ
  rate : Option ℚ
  processingFee : Option ℚ
  embassyFee : Option ℚ
  paxCount : Option ℚ
  basePrice : Option ℚ
  quantity : Option ℚ
  unitPrice : Option ℚ
  additionalFees : Option ℚ
  baseCost : Option ℚ
  additionalCharges : Option ℚ
  customizationCharges : Option ℚ
  brandingCharges : Option ℚ
  discount : Option ℚ
deriving DecidableEq

/-- A LineDetails record with every field absent. -/
def dNone : LineDetails :=
  ⟨none, none, none, none, none, none, none, none, none, none, none, none,
   none, none, none, none, none, none, none, none, none, none, none, none,
   none, none, none, none, none⟩

/-- absOrPct(absMaybe, pctMaybe, base) of calc.ts: prefer the absolute
amount when it is greater than 0, else the percentage applied to base,
else 0. -/
def absOrPct (absMaybe pctMaybe : Option ℚ) (base : ℚ) : ℚ :=
  if 0 < numF absMaybe 0 then numF absMaybe 0
  else if 0 < pctF pctMaybe then pctF pctMaybe / 100 * base
  else 0

/-- The explicit flight tax surcharge bucket (explicitTax in the FLIGHTS
branch of computeLineParts); zero for every other category. -/
def explicitTaxOf (st : ServiceType) (d : LineDetails) : ℚ :=
  match st with
  | .FLIGHTS => numF d.otTax 0 + numF d.k3gst 0 + numF d.yqTax 0 + numF d.yrTax 0
  | _ => 0

/-- The explicit flight service surcharge bucket (explicitSvc in the
FLIGHTS branch of computeLineParts); zero for every other category. -/
def explicitSvcOf (st : ServiceType) (d : LineDetails) : ℚ :=
  match st with
  | .FLIGHTS =>
      numF d.bagCharges 0 + numF d.mealCharges 0 + numF d.seatCharges 0 +
      numF d.spServiceCharges 0 + numF d.globalPrCharges 0
  | _ => 0

/-- The switch of computeLineParts: per category produce
(base, taxExtra, serviceExtra) before any rounding. -/
def lineRaw (st : ServiceType) (d : LineDetails) : ℚ × ℚ × ℚ :=
  match st with
  | .FLIGHTS =>
      let base := numF d.fare 0
      (base,
       explicitTaxOf .FLIGHTS d + absOrPct d.tax d.taxPct base,
       explicitSvcOf .FLIGHTS d + absOrPct d.serviceCharges d.servicePct base)
  | .HOTELS =>
      let base := numF d.rooms 1 * numF d.nights 1 * numF d.rate 0
      (base, absOrPct d.tax d.taxPct base, absOrPct d.serviceCharges d.servicePct base)
  | .VISAS =>
      let base := numF d.processingFee 0 + numF d.embassyFee 0
      (base, absOrPct d.tax d.taxPct base, absOrPct d.serviceCharges d.servicePct base)
  | .HOLIDAYS =>
      let baseOptionA := numF d.paxCount 0 * numF d.basePrice 0
      let baseOptionB := numF d.quantity 1 * numF d.unitPrice 0 + numF d.additionalFees 0
      let base := if baseOptionA = 0 then baseOptionB else baseOptionA
      (base, absOrPct d.tax d.taxPct base, absOrPct d.serviceCharges d.servicePct base)
  | .MICE =>
      let base := numF d.baseCost 0 + numF d.additionalCharges 0
      (base, absOrPct d.tax d.taxPct base, absOrPct d.serviceCharges d.servicePct base)
  | .STATIONERY =>
      let base := numF d.quantity 1 * numF d.unitPrice 0
      (base, absOrPct d.tax d.taxPct base, absOrPct d.serviceCharges d.servicePct base)
  | .GIFT_ITEMS =>
      let base := numF d.quantity 1 * numF d.unitPrice 0 + numF d.customizationCharges 0
      (base, absOrPct d.tax d.taxPct base, absOrPct d.serviceCharges d.servicePct base)
  | .GOODIES =>
      let base := numF d.quantity 1 * numF d.unitPrice 0 + numF d.brandingCharges 0
      (base, absOrPct d.tax d.taxPct base, absOrPct d.serviceCharges d.servicePct base)
  | .OTHER =>
      let base := numF d.quantity 1 * numF d.unitPrice 0 + numF d.additionalFees 0
      (base, absOrPct d.tax d.taxPct base, absOrPct d.serviceCharges d.servicePct base)

/-- The record returned per line by computeLineParts. -/
structure LineAmounts where
  base : ℚ
  tax : ℚ
  service : ℚ
  total : ℚ
deriving DecidableEq

/-- computeLineParts(serviceType, details) of calc.ts: the per-category raw
amounts, each component rounded to two decimals, and the stored total
computed as round2 of the sum of the three rounded components. -/
def computeLineParts (st : ServiceType) (d : LineDetails) : LineAmounts :=
  let p := lineRaw st d
  { base := round2 p.1
    tax := round2 p.2.1
    service := round2 p.2.2
    total := round2 (round2 p.1 + round2 p.2.1 + round2 p.2.2) }

/- ------------------------------------------------------------------ -/
/- String utilities shared by the classifiers and the proforma detector -/
/- ------------------------------------------------------------------ -/

/-- ASCII lower-casing of one character (what toLowerCase does on the
ASCII identifiers this engine handles). -/
def jsLower (c : Char) : Char :=
  if 'A' ≤ c ∧ c ≤ 'Z' then Char.ofNat (c.toNat + 32) else c

/-- Keep characters matched by the character class used in normalizeKey. -/
def isAlnumLower (c : Char) : Bool :=
  decide (('a' ≤ c ∧ c ≤ 'z') ∨ ('0' ≤ c ∧ c ≤ '9'))

/-- normalizeKey / normKey of the routes: lower-case the string and strip
every character that is not a lower-case letter or digit. -/
def normKeyStr (s : String) : List Char :=
  (s.data.map jsLower).filter isAlnumLower

/-- Substring search: does the needle nd occur inside the list? -/
def hasSubAux (nd : List Char) : List Char → Bool
  | [] => nd.isEmpty
  | c :: t => nd.isPrefixOf (c :: t) || hasSubAux nd t

/-- JS String.prototype.includes on the normalized key. -/
def subOf (nd : String) (s : List Char) : Bool := hasSubAux nd.data s

/-- JS String.prototype.startsWith on the normalized key. -/
def pfxOf (p : String) (s : List Char) : Bool := p.data.isPrefixOf s

/-- JS Array.prototype.includes of a normalized key in an alias list. -/
def memOf (s : List Char) (l : List String) : Bool :=
  l.any fun a => s == a.data

/-- Membership after normalizing each alias (the invoiceExports loop
compares normalizeKey(raw) with normalizeKey(m)). -/
def memOfNorm (s : List Char) (l : List String) : Bool :=
  l.any fun m => s == normKeyStr m

/-- An input value handed to a classifier: a string, a number (carried as
the decimal rendering that JS String(n) produces), null, or undefined. -/
inductive RawVal where
  | str (s : String)
  | numv (rendered : String)
  | nullv
  | undef

/-- JS String(x ?? ""): null and undefined become the empty string. -/
def jsStr : RawVal → String
  | .str s => s
  | .numv r => r
  | .nullv => ""
  | .undef => ""

/-- The normalized key of a raw classifier input. -/
def normKey (x : RawVal) : List Char := normKeyStr (jsStr x)

/- ------------------------------------------------------------------ -/
/- The canonical service-type classifiers                              -/
/- ------------------------------------------------------------------ -/

/-- canonicalServiceType of the dashboard route (src/unnamed/part_001):
alias membership plus prefix / substring heuristics, first match wins,
default "OTHER". -/
def canonicalServiceType (raw : RawVal) : String :=
  let s := normKey raw
  if memOf s ["flight", "flights", "air", "airticket", "ticket"] ||
     pfxOf "flight" s || pfxOf "air" s then "FLIGHTS"
  else if memOf s ["hotel", "hotels", "stay"] || pfxOf "hotel" s || subOf "stay" s then "HOTELS"
  else if memOf s ["holiday", "tour", "package"] || pfxOf "holiday" s || subOf "tour" s then "HOLIDAYS"
  else if memOf s ["visa", "visas"] then "VISAS"
  else if memOf s ["mice", "conference", "event", "meeting"] || pfxOf "mice" s then "MICE"
  else if memOf s ["stationary", "stationery"] then "STATIONERY"
  else if memOf s ["gift", "gifts", "giftitems"] then "GIFT_ITEMS"
  else if memOf s ["goodies", "goodie"] then "GOODIES"
  else "OTHER"

/-- Disjunction of every alias or heuristic condition tested by
canonicalServiceType (exactly the conditions of its if chain). -/
def matchesSomeAlias (raw : RawVal) : Bool :=
  let s := normKey raw
  (memOf s ["flight", "flights", "air", "airticket", "ticket"] ||
     pfxOf "flight" s || pfxOf "air" s) ||
  (memOf s ["hotel", "hotels", "stay"] || pfxOf "hotel" s || subOf "stay" s) ||
  (memOf s ["holiday", "tour", "package"] || pfxOf "holiday" s || subOf "tour" s) ||
  memOf s ["visa", "visas"] ||
  (memOf s ["mice", "conference", "event", "meeting"] || pfxOf "mice" s) ||
  memOf s ["stationary", "stationery"] ||
  memOf s ["gift", "gifts", "giftitems"] ||
  memOf s ["goodies", "goodie"]

/-- canonicalServiceType of invoiceExports.ts: the SERVICE_SHEETS exact
alias loop runs first (unrolled here over the fixed literal table), then
the prefix / substring heuristics, default "Others". -/
def canonicalServiceTypeX (raw : String) : String :=
  let s := normKeyStr raw
  if memOfNorm s ["flight", "flights", "air", "airticket", "ticket"] then "Flight"
  else if memOfNorm s ["hotel", "hotels", "stay"] then "Hotel"
  else if memOfNorm s ["holiday", "tour", "package"] then "Holiday"
  else if memOfNorm s ["visa"] then "Visa"
  else if memOfNorm s ["mice", "conference", "event", "meeting"] then "MICE"
  else if memOfNorm s ["stationary", "stationery"] then "Stationary"
  else if memOfNorm s ["gift", "gifts", "giftitems"] then "Gift Items"
  else if memOfNorm s ["goodies", "goodie"] then "Goodies"
  else if memOfNorm s ["other", "others", "misc", "miscellaneous"] then "Others"
  else if pfxOf "flight" s || pfxOf "air" s then "Flight"
  else if pfxOf "hotel" s || subOf "stay" s then "Hotel"
  else if pfxOf "holiday" s || subOf "tour" s || subOf "package" s then "Holiday"
  else if pfxOf "visa" s then "Visa"
  else if pfxOf "mice" s || subOf "conference" s || subOf "event" s || subOf "meeting" s then "MICE"
  else if pfxOf "stationary" s || pfxOf "stationery" s then "Stationary"
  else if subOf "gift" s then "Gift Items"
  else if subOf "goodie" s then "Goodies"
  else "Others"

/- ------------------------------------------------------------------ -/
/- invoiceExports.ts : computeAmounts                                  -/
/- ------------------------------------------------------------------ -/

/-- One export-time line item; each numeric field holds the value that the
tolerant pickItem resolution produced for its alias list (none when no
alias resolved). serviceTypeRaw is the resolved service-type string. -/
structure ExportItem where
  serviceTypeRaw : String
  rooms : Option ℚ
  nights : Option ℚ
  rate : Option ℚ
  baseFare : Option ℚ
  qty : Option ℚ
  unit : Option ℚ
  discount : Option ℚ

/-- The per-item base term summed into subtotalFromItems by
computeAmounts of invoiceExports.ts. -/
def exportItemBase (it : ExportItem) : ℚ :=
  let svc := canonicalServiceTypeX it.serviceTypeRaw
  if svc = "Hotel" then
    numF it.rooms 1 * numF it.nights 1 * numF it.rate 0 - numF it.discount 0
  else if svc = "Flight" ∧ 0 < numF it.baseFare 0 then
    numF it.baseFare 0 - numF it.discount 0
  else
    numF it.qty 1 * numF it.unit 0 - numF it.discount 0

/-- The header fields computeAmounts of invoiceExports.ts reads (each an
alias that a stored invoice row may carry). -/
structure ExportHeader where
  subtotal : Option ℚ
  taxAmt : Option ℚ
  taxTotal : Option ℚ
  tax_total : Option ℚ
  tax : Option ℚ
  svcAmt : Option ℚ
  serviceCharges : Option ℚ
  serviceCharge : Option ℚ
  service_total : Option ℚ
  total : Option ℚ
  grandTotal : Option ℚ
  grand_total : Option ℚ
  taxPct : Option ℚ
  taxPercent : Option ℚ
  tax_percentage : Option ℚ
  svcPct : Option ℚ
  servicePct : Option ℚ
  servicePercent : Option ℚ
  service_percentage : Option ℚ

/-- An ExportHeader with every field absent. -/
def hNoneExport : ExportHeader :=
  ⟨none, none, none, none, none, none, none, none, none, none,
   none, none, none, none, none, none, none, none, none⟩

/-- The invoice-level totals object of invoiceExports.ts. -/
structure ExportTotals where
  subtotal : ℚ
  taxPct : ℚ
  taxAmt : ℚ
  svcPct : ℚ
  svcAmt : ℚ
  total : ℚ
deriving DecidableEq

/-- computeAmounts(inv, items) of invoiceExports.ts. The percentage
fallbacks are guarded by the truthiness of subtotal, so the division is
performed only when subtotal is nonzero. -/
def computeAmountsExport (inv : ExportHeader) (items : List ExportItem) : ExportTotals :=
  let subtotalFromItems := (items.map exportItemBase).sum
  let subtotal := if 0 < subtotalFromItems then subtotalFromItems else numF inv.subtotal 0
  let taxAmt := numF (inv.taxAmt <|> inv.taxTotal <|> inv.tax_total <|> inv.tax) 0
  let svcAmt := numF (inv.svcAmt <|> inv.serviceCharges <|> inv.serviceCharge <|> inv.service_total) 0
  let total := numF (inv.total <|> inv.grandTotal <|> inv.grand_total) (subtotal + taxAmt + svcAmt)
  let taxPct := numF (inv.taxPct <|> inv.taxPercent <|> inv.tax_percentage)
      (if subtotal ≠ 0 then round2 (100 * taxAmt / subtotal) else 0)
  let svcPct := numF (inv.svcPct <|> inv.servicePct <|> inv.servicePercent <|> inv.service_percentage)
      (if subtotal ≠ 0 then round2 (100 * svcAmt / subtotal) else 0)
  ⟨subtotal, taxPct, taxAmt, svcPct, svcAmt, total⟩

/- ------------------------------------------------------------------ -/
/- HistoryPage.tsx : computeAmounts (the totals reconciliator with the  -/
/- 0.5 tolerance consistency check)                                     -/
/- ------------------------------------------------------------------ -/

/-- One line item as read by computeAmounts of HistoryPage.tsx. -/
structure HistItem where
  qty : Option ℚ
  quantity : Option ℚ
  unitPrice : Option ℚ
  price : Option ℚ
  rate : Option ℚ
  discount : Option ℚ
  disc : Option ℚ
  amount : Option ℚ

/-- The per-item base term of the reduce in HistoryPage computeAmounts:
the item amount when present, else qty times unit minus discount. -/
def histItemBase (it : HistItem) : ℚ :=
  let q := numF (it.qty <|> it.quantity) 1
  let unit := numF (it.unitPrice <|> it.price <|> it.rate) 0
  let d := numF (it.discount <|> it.disc) 0
  numF it.amount (q * unit - d)

/-- An invoice row as read by computeAmounts of HistoryPage.tsx; items is
the flattened pool produced by itemsFromRow (the JSON-string and nested
container plumbing of itemsFromRow is input decoding, modelled as the
already-flattened list). -/
structure HistRow where
  taxPct : Option ℚ
  taxPercent : Option ℚ
  tax_percentage : Option ℚ
  tax_rate : Option ℚ
  tax : Option ℚ
  svcPct : Option ℚ
  servicePct : Option ℚ
  servicePercent : Option ℚ
  service_percentage : Option ℚ
  service : Option ℚ
  taxAmt : Option ℚ
  taxTotal : Option ℚ
  tax_total : Option ℚ
  svcAmt : Option ℚ
  serviceCharges : Option ℚ
  service_total : Option ℚ
  subtotal : Option ℚ
  subTotal : Option ℚ
  sub_total : Option ℚ
  total : Option ℚ
  grandTotal : Option ℚ
  grand_total : Option ℚ
  items : List HistItem

/-- A HistRow with every field absent and no items. -/
def rNoneHist : HistRow :=
  ⟨none, none, none, none, none, none, none, none, none, none, none,
   none, none, none, none, none, none, none, none, none, none, none, []⟩

/-- The raw percentage chain taxPct through tax of HistoryPage, coerced by
num (0 when nothing is stored). -/
def histTaxPctRaw (r : HistRow) : ℚ :=
  numF (r.taxPct <|> r.taxPercent <|> r.tax_percentage <|> r.tax_rate <|> r.tax) 0

/-- The raw percentage chain svcPct through service of HistoryPage. -/
def histSvcPctRaw (r : HistRow) : ℚ :=
  numF (r.svcPct <|> r.servicePct <|> r.servicePercent <|> r.service_percentage <|> r.service) 0

/-- subtotalFromItems of HistoryPage computeAmounts (0 when no items). -/
def histSubtotalFromItems (r : HistRow) : ℚ :=
  if r.items.isEmpty then 0 else (r.items.map histItemBase).sum

/-- The resolved stored header subtotal. -/
def histRawSubtotal (r : HistRow) : ℚ :=
  numF (r.subtotal <|> r.subTotal <|> r.sub_total) 0

/-- The resolved stored absolute tax amount. -/
def histRawTaxAmt (r : HistRow) : ℚ :=
  numF (r.taxAmt <|> r.taxTotal <|> r.tax_total) 0

/-- The resolved stored absolute service amount. -/
def histRawSvcAmt (r : HistRow) : ℚ :=
  numF (r.svcAmt <|> r.serviceCharges <|> r.service_total) 0

/-- The resolved stored grand total. -/
def histRawTotal (r : HistRow) : ℚ :=
  numF (r.total <|> r.grandTotal <|> r.grand_total) 0

/-- First-pass subtotal: subtotalFromItems short-circuit-or the stored
header subtotal. -/
def histSubtotal0 (r : HistRow) : ℚ :=
  if histSubtotalFromItems r ≠ 0 then histSubtotalFromItems r else histRawSubtotal r

/-- First-pass tax amount taxAmt0: the stored absolute amount, else the
stored percentage applied to the first-pass subtotal (or to the stored
total when that subtotal is zero), else 0. -/
def histTaxAmt0 (r : HistRow) : ℚ :=
  if histRawTaxAmt r ≠ 0 then histRawTaxAmt r
  else if histTaxPctRaw r ≠ 0 then
    histTaxPctRaw r / 100 * (if histSubtotal0 r ≠ 0 then histSubtotal0 r else histRawTotal r)
  else 0

/-- First-pass service amount svcAmt0. -/
def histSvcAmt0 (r : HistRow) : ℚ :=
  if histRawSvcAmt r ≠ 0 then histRawSvcAmt r
  else if histSvcPctRaw r ≠ 0 then
    histSvcPctRaw r / 100 * (if histSubtotal0 r ≠ 0 then histSubtotal0 r else histRawTotal r)
  else 0

/-- derivedSubtotal of HistoryPage: stored total minus first-pass amounts
when a stored total exists, else 0. -/
def histDerivedSubtotal (r : HistRow) : ℚ :=
  if histRawTotal r ≠ 0 then histRawTotal r - histTaxAmt0 r - histSvcAmt0 r else 0

/-- The reconciled subtotal: the consistency-check branch
(first-pass subtotal falsy, or the 0.5 mismatch) replaces the subtotal by
subtotalFromItems, else derivedSubtotal, else the stored subtotal. -/
def histSubtotalFinal (r : HistRow) : ℚ :=
  if histSubtotal0 r = 0 ∨
     |histSubtotal0 r + histTaxAmt0 r + histSvcAmt0 r - histRawTotal r| > 1/2 then
    if histSubtotalFromItems r ≠ 0 then histSubtotalFromItems r
    else if histDerivedSubtotal r ≠ 0 then histDerivedSubtotal r
    else histRawSubtotal r
  else histSubtotal0 r

/-- The totals object returned by HistoryPage computeAmounts; the
percentage outputs are number-or-empty-string, modelled as Option (none
renders as the empty string). -/
structure HistTotals where
  subtotal : ℚ
  taxPct : Option ℚ
  taxAmt : ℚ
  svcPct : Option ℚ
  svcAmt : ℚ
  total : ℚ
deriving DecidableEq

/-- computeAmounts(r) of HistoryPage.tsx: reconcile the stored header
totals with the line-item sum, then rebuild taxAmt / svcAmt against the
reconciled subtotal and fill the total. -/
def computeAmountsHist (r : HistRow) : HistTotals :=
  let subtotal := histSubtotalFinal r
  let taxAmt :=
    if histRawTaxAmt r ≠ 0 then histRawTaxAmt r
    else if histTaxPctRaw r ≠ 0 then histTaxPctRaw r / 100 * subtotal
    else 0
  let svcAmt :=
    if histRawSvcAmt r ≠ 0 then histRawSvcAmt r
    else if histSvcPctRaw r ≠ 0 then histSvcPctRaw r / 100 * subtotal
    else 0
  let total := if histRawTotal r ≠ 0 then histRawTotal r else subtotal + taxAmt + svcAmt
  { subtotal := subtotal
    taxPct := if histTaxPctRaw r ≠ 0 then some (histTaxPctRaw r) else none
    taxAmt := taxAmt
    svcPct := if histSvcPctRaw r ≠ 0 then some (histSvcPctRaw r) else none
    svcAmt := svcAmt
    total := total }

/- ------------------------------------------------------------------ -/
/- services/s3.ts (pdf service) : isProforma                           -/
/- ------------------------------------------------------------------ -/

/-- Whitespace characters trimmed by String.prototype.trim (the common
ASCII ones; invoice fields contain no exotic whitespace). -/
def isWs (c : Char) : Bool :=
  decide (c = ' ' ∨ c = '\t' ∨ c = '\n' ∨ c = '\r')

/-- Trim whitespace from both ends of a character list. -/
def trimWs (l : List Char) : List Char :=
  ((l.dropWhile isWs).reverse.dropWhile isWs).reverse

/-- The s(x) helper of isProforma: lower-case then trim; null becomes the
empty string. -/
def sLower (x : String) : List Char := trimWs (x.data.map jsLower)

/-- The regex test for pro-?forma and per-?forma as a substring. -/
def testPerforma (s : List Char) : Bool :=
  hasSubAux "proforma".data s || hasSubAux "pro-forma".data s ||
  hasSubAux "performa".data s || hasSubAux "per-forma".data s

/-- The quotation / proforma number stems accepted by isProforma. -/
def pfxAlts : List String := ["qt", "qtn", "quo", "pi", "pfi", "pf"]

/-- The separator characters accepted after a stem. -/
def sepChars : List Char := ['-', '_', '/']

/-- The anchored regex on the invoice number: a stem followed by one of
the separators, at the start of the lowercased number. -/
def testPfxNumber (s : List Char) : Bool :=
  pfxAlts.any fun p => sepChars.any fun c => (p.data ++ [c]).isPrefixOf s

/-- JS regex word character class. -/
def isWordChar (c : Char) : Bool :=
  decide (('a' ≤ c ∧ c ≤ 'z') ∨ ('A' ≤ c ∧ c ≤ 'Z') ∨ ('0' ≤ c ∧ c ≤ '9') ∨ c = '_')

/-- Does the word w start here, with a non-word character (or the end)
right after it? -/
def wordHere (w : List Char) (l : List Char) : Bool :=
  w.isPrefixOf l && !(((l.drop w.length).head?.map isWordChar).getD false)

/-- Scan for a word-boundary-delimited occurrence of w, keeping track of
the previous character. -/
def wbAux (w : List Char) : Option Char → List Char → Bool
  | _, [] => false
  | prev, c :: t =>
      (!((prev.map isWordChar).getD false) && wordHere w (c :: t)) || wbAux w (some c) t

/-- Word-boundary regex test for one word. -/
def wbTest (w : String) (s : List Char) : Bool := wbAux w.data none s

/-- The word-boundary regex on the invoice number. -/
def testWordNumber (s : List Char) : Bool :=
  wbTest "proforma" s || wbTest "performa" s

/-- The fields isProforma of services/s3.ts reads; fields that may be
null or absent are the empty string (the s helper maps both to ""). -/
structure ProformaInv where
  invoiceNo : String
  status : String
  documentKind : String
  docType : String
  metaIsProforma : Bool
  metaDocumentKind : String
  metaDocType : String

/-- isProforma(inv) of services/s3.ts: the sequence of early-return
signal tests. -/
def isProforma (inv : ProformaInv) : Bool :=
  let number := sLower inv.invoiceNo
  if inv.metaIsProforma then true
  else if testPerforma (sLower inv.status) then true
  else if testPerforma (sLower inv.documentKind) then true
  else if testPerforma (sLower inv.docType) then true
  else if testPerforma (sLower inv.metaDocumentKind) then true
  else if testPerforma (sLower inv.metaDocType) then true
  else if testPfxNumber number then true
  else if testWordNumber number then true
  else false

/-- Modelled from the claim wording for comparison: the signal set claim
C7 enumerates, with the proforma/performa match on status, kind and type
fields, the same match on the invoice number, and the number prefixes
QT-, QTN-, PI-, PFI-, PF- only (no QUO stem, hyphen separator only). -/
def claimedProformaSignals (inv : ProformaInv) : Bool :=
  let number := sLower inv.invoiceNo
  inv.metaIsProforma ||
  testPerforma (sLower inv.status) ||
  testPerforma (sLower inv.documentKind) ||
  testPerforma (sLower inv.docType) ||
  testPerforma (sLower inv.metaDocumentKind) ||
  testPerforma (sLower inv.metaDocType) ||
  testPerforma number ||
  (["qt-", "qtn-", "pi-", "pfi-", "pf-"].any fun p => p.data.isPrefixOf number)

/- ------------------------------------------------------------------ -/
/- services/s3.ts (pdf service) : buildProformaDocDef totals            -/
/- ------------------------------------------------------------------ -/

/-- The numeric detail fields of a pdf line item that buildProformaDocDef
reads (via asNum over optional values). -/
structure PdfItemDetails where
  qty : Option ℚ
  quantity : Option ℚ
  baseFare : Option ℚ
  fare : Option ℚ
  rate : Option ℚ
  unitPrice : Option ℚ
  price : Option ℚ
  discount : Option ℚ
  taxPct : Option ℚ
  taxPercent : Option ℚ
  tax_rate : Option ℚ
  tax : Option ℚ

/-- Empty details record (the d0 fallback for a missing first item). -/
def pdfDetailsNone : PdfItemDetails :=
  ⟨none, none, none, none, none, none, none, none, none, none, none, none⟩

/-- The invoice fields buildProformaDocDef reads; the string-typed stored
totals are carried through asNum as rationals (0 for null). -/
structure PdfInvoiceDoc where
  subtotal : ℚ
  taxTotal : ℚ
  serviceCharges : ℚ
  grandTotal : ℚ
  gstCgst : ℚ
  gstSgst : ℚ
  items : List PdfItemDetails

/-- parseLine base of buildProformaDocDef:
max(0, qty times rate minus discount). -/
def pdfLineBase (d : PdfItemDetails) : ℚ :=
  let q := numF (d.qty <|> d.quantity) 1
  let rate := numF (d.baseFare <|> d.fare <|> d.rate <|> d.unitPrice <|> d.price) 0
  let disc := numF d.discount 0
  max 0 (q * rate - disc)

/-- The rendered subtotal: the line-base sum, falling back to the stored
subtotal when the sum is falsy. -/
def pdfSubTotal (inv : PdfInvoiceDoc) : ℚ :=
  let s := (inv.items.map pdfLineBase).sum
  if s ≠ 0 then s else inv.subtotal

/-- Steps 1 to 3 of the totalTaxPct derivation cascade (metadata CGST and
SGST amounts, then the stored tax total, then the first line item's tax
fields); none when every step declines.  These steps never read the
stored grandTotal or serviceCharges. -/
def ttpSteps123 (inv : PdfInvoiceDoc) : Option ℚ :=
  let subTotal := pdfSubTotal inv
  if 0 < subTotal ∧ (inv.gstCgst ≠ 0 ∨ inv.gstSgst ≠ 0) then
    some (round2 (100 * (inv.gstCgst + inv.gstSgst) / subTotal))
  else if 0 < subTotal ∧ 0 < inv.taxTotal then
    some (round2 (100 * inv.taxTotal / subTotal))
  else
    let d0 := inv.items.head?.getD pdfDetailsNone
    let rawPct := numF (d0.taxPct <|> d0.taxPercent <|> d0.tax_rate) 0
    if 0 < rawPct ∧ rawPct ≤ 100 then some rawPct
    else if 100 < rawPct ∧ 0 < subTotal then some (round2 (100 * rawPct / subTotal))
    else
      let rawAmt := numF d0.tax 0
      if 0 < rawAmt ∧ 0 < subTotal then some (round2 (100 * rawAmt / subTotal)) else none

/-- The full totalTaxPct cascade: steps 1-3, then the grand-total
approximation, then 0. -/
def pdfTotalTaxPct (inv : PdfInvoiceDoc) : ℚ :=
  match ttpSteps123 inv with
  | some t => t
  | none =>
      let subTotal := pdfSubTotal inv
      if 0 < subTotal then
        round2 (100 * max 0 (inv.grandTotal - subTotal - inv.serviceCharges) / subTotal)
      else 0

/-- The totals box values of the proforma document definition. -/
structure ProformaTotals where
  subTotal : ℚ
  totalTaxPct : ℚ
  cgstPct : ℚ
  sgstPct : ℚ
  cgstTotal : ℚ
  sgstTotal : ℚ
  grandTotal : ℚ
deriving DecidableEq

/-- The totals computation of buildProformaDocDef: the split percentages
are each half of totalTaxPct rounded to 2 decimals, the tax halves are
computed from the rendered subtotal, and the rendered grand total is the
rounded sum of subtotal and the two halves. -/
def buildProformaTotals (inv : PdfInvoiceDoc) : ProformaTotals :=
  let subTotal := pdfSubTotal inv
  let ttp := pdfTotalTaxPct inv
  let cgstPct := round2 (ttp / 2)
  let sgstPct := round2 (ttp / 2)
  let cgstTotal := round2 (subTotal * cgstPct / 100)
  let sgstTotal := round2 (subTotal * sgstPct / 100)
  { subTotal := subTotal
    totalTaxPct := ttp
    cgstPct := cgstPct
    sgstPct := sgstPct
    cgstTotal := cgstTotal
    sgstTotal := sgstTotal
    grandTotal := round2 (subTotal + cgstTotal + sgstTotal) }

/- ------------------------------------------------------------------ -/
/- Emission wrappers and spec-side comparison definitions              -/
/- ------------------------------------------------------------------ -/

/-- The taxPct cell the export summary emits: buildSummary always carries
the numeric taxPct of computeAmounts, so the emitted cell is always a
number. -/
def exportTaxPctCell (inv : ExportHeader) (items : List ExportItem) : Option ℚ :=
  some ((computeAmountsExport inv items).taxPct)

/-- Modelled from the claim wording for comparison: the percentage cell as
claim C9 describes it, back-computed from the amount when not stored, and
empty / omitted when the reconciled subtotal is zero. -/
def claimedExportPctEmission (stored : Option ℚ) (amt subtotal : ℚ) : Option ℚ :=
  match stored with
  | some p => some p
  | none => if subtotal = 0 then none else some (round2 (100 * amt / subtotal))

/- ------------------------------------------------------------------ -/
/- Concrete inputs used by the claim theorems                          -/
/- ------------------------------------------------------------------ -/

/-- A flight line with explicit surcharge, absolute tax and tax percent. -/
def c1FlightIn : LineDetails :=
  { dNone with fare := some 100, otTax := some 5, tax := some 10, taxPct := some 18 }

/-- A hotel line with both absolute and percentage tax and service. -/
def c1HotelIn : LineDetails :=
  { dNone with
      rooms := some 2
      nights := some 3
      rate := some 4500
      tax := some 810
      taxPct := some 18
      serviceCharges := some 200
      servicePct := some 5 }

/-- A hotel line with a supplied positive discount field. -/
def c3HotelIn : LineDetails :=
  { dNone with rooms := some 2, nights := some 3, rate := some 4500, discount := some 1000 }

/-- An export line item classifying as Hotel, with a discount. -/
def c3ExportItemIn : ExportItem :=
  { serviceTypeRaw := "hotel", rooms := some 2, nights := some 3, rate := some 4500,
    baseFare := none, qty := none, unit := none, discount := some 1000 }

/-- One history line item of unit price 3000. -/
def hItem3000 : HistItem := ⟨none, none, some 3000, none, none, none, none, none⟩

/-- Scenario D of the specification: header subtotal 0, three line items
whose bases sum to 9000, header total 10620, header taxAmt and svcAmt 0. -/
def c4RowIn : HistRow :=
  { rNoneHist with
      subtotal := some 0
      taxAmt := some 0
      svcAmt := some 0
      total := some 10620
      items := [hItem3000, hItem3000, hItem3000] }

/-- A header with a stored tax percentage, a stored absolute service
amount, a stored subtotal and a stored total. -/
def c5RowIn : HistRow :=
  { rNoneHist with
      taxPct := some 12
      svcAmt := some 250
      subtotal := some 1000
      total := some 1370 }

/-- An invoice whose number carries the quotation prefix QUO-. -/
def c7QuoIn : ProformaInv :=
  { invoiceNo := "QUO-2025-001", status := "", documentKind := "", docType := "",
    metaIsProforma := false, metaDocumentKind := "", metaDocType := "" }

/-- An export header with a stored absolute tax amount and nothing else:
its reconciled subtotal is zero. -/
def c9HeaderIn : ExportHeader := { hNoneExport with taxAmt := some 37 }

/-- A proforma pdf invoice with no usable tax signal before the final
grand-total fallback of the percentage derivation. -/
def c10DocA : PdfInvoiceDoc :=
  { subtotal := 1000, taxTotal := 0, serviceCharges := 0, grandTotal := 1180,
    gstCgst := 0, gstSgst := 0, items := [] }

/-- The same invoice with the stored grand total changed. -/
def c10DocB : PdfInvoiceDoc := { c10DocA with grandTotal := 1000 }

/-- The same invoice with the stored service charges changed. -/
def c10DocC : PdfInvoiceDoc := { c10DocA with serviceCharges := 180 }

/-- A proforma pdf invoice whose tax percentage is fixed by metadata GST
amounts (derivation step 1). -/
def c10DocD : PdfInvoiceDoc :=
  { subtotal := 10000, taxTotal := 0, serviceCharges := 7, grandTotal := 99,
    gstCgst := 900, gstSgst := 900, items := [] }

/-- Scenario E of the specification: subtotal 10000 and metadata GST
amounts cgst 900 and sgst 900. -/
def c8DocE : PdfInvoiceDoc :=
  { subtotal := 10000, taxTotal := 0, serviceCharges := 0, grandTotal := 0,
    gstCgst := 900, gstSgst := 900, items := [] }

/- ------------------------------------------------------------------ -/
/- Helper lemmas                                                       -/
/- ------------------------------------------------------------------ -/

/-- round2 is the identity on integer multiples of 1/100. -/
theorem round2_cast_div (m : ℤ) : round2 ((m : ℚ) / 100) = (m : ℚ) / 100 := by
  unfold round2
  have h1 : (m : ℚ) / 100 * 100 + 1/2 = (m : ℚ) + 1/2 := by ring
  have h2 : ⌊(m : ℚ) + 1/2⌋ = m := by
    rw [Int.floor_int_add]
    have h3 : ⌊(1 : ℚ)/2⌋ = 0 := by
      rw [Int.floor_eq_zero_iff]
      constructor <;> norm_num
    omega
  rw [h1, h2]

/-- Rounding a sum of already-rounded summands changes nothing. -/
theorem round2_sum_fix (x y z : ℚ) :
    round2 (round2 x + round2 y + round2 z) = round2 x + round2 y + round2 z := by
  have h : round2 x + round2 y + round2 z
      = ((⌊x * 100 + 1/2⌋ + ⌊y * 100 + 1/2⌋ + ⌊z * 100 + 1/2⌋ : ℤ) : ℚ) / 100 := by
    unfold round2; push_cast; ring
  rw [h, round2_cast_div]

/-- absOrPct returns the absolute amount whenever it is positive. -/
theorem absOrPct_abs_pos (a p : Option ℚ) (b : ℚ) (h : 0 < numF a 0) :
    absOrPct a p b = numF a 0 := by
  unfold absOrPct; rw [if_pos h]

/-- Membership in a list is preserved by an if-then-else on members. -/
theorem mem_ite_of {α : Type} {c : Prop} [Decidable c] {a b : α} {l : List α}
    (ha : a ∈ l) (hb : b ∈ l) : (if c then a else b) ∈ l := by
  split
  · exact ha
  · exact hb

/- ------------------------------------------------------------------ -/
/- Claim theorems                                                      -/
/- ------------------------------------------------------------------ -/

/-- Claim C1, as stated, is false on the FLIGHTS category: with the line
record carrying fare 100, otTax 5, absolute tax 10 and taxPct 18 (so both
A = 10 > 0 and P = 18 > 0 are supplied), computeLineParts returns a tax
component of 15 = round2(otTax + A), which is neither round2(A) = 10 nor
round2(P/100 times base) = 18. -/
theorem c1_counterexample :
    0 < numF c1FlightIn.tax 0 ∧ 0 < pctF c1FlightIn.taxPct ∧
    (computeLineParts .FLIGHTS c1FlightIn).tax = 15 ∧
    round2 (numF c1FlightIn.tax 0) = 10 ∧
    round2 (pctF c1FlightIn.taxPct / 100 * (computeLineParts .FLIGHTS c1FlightIn).base) = 18 ∧
    (computeLineParts .FLIGHTS c1FlightIn).tax ≠ round2 (numF c1FlightIn.tax 0) ∧
    (computeLineParts .FLIGHTS c1FlightIn).tax ≠
      round2 (pctF c1FlightIn.taxPct / 100 * (computeLineParts .FLIGHTS c1FlightIn).base) := by
  norm_num [c1FlightIn, dNone, computeLineParts, lineRaw, explicitTaxOf, explicitSvcOf,
    absOrPct, numF, pctF, round2]

/-- Claim C1 (amended): for every category and record in which an absolute
tax amount A greater than 0 and a tax percentage P greater than 0 are both
supplied, the tax component of computeLineParts equals
round2(E + A), where E is the explicit flight tax surcharge sum (zero for
every category other than FLIGHTS); the percentage P never contributes.
The same holds for the service-charge pair with the explicit flight
service surcharge sum. -/
theorem c1_amended (st : ServiceType) (d : LineDetails) :
    (0 < numF d.tax 0 → 0 < pctF d.taxPct →
      (computeLineParts st d).tax = round2 (explicitTaxOf st d + numF d.tax 0)) ∧
    (0 < numF d.serviceCharges 0 → 0 < pctF d.servicePct →
      (computeLineParts st d).service = round2 (explicitSvcOf st d + numF d.serviceCharges 0)) := by
  constructor
  · intro hA _
    cases st <;>
      simp [computeLineParts, lineRaw, explicitTaxOf, absOrPct_abs_pos _ _ _ hA]
  · intro hS _
    cases st <;>
      simp [computeLineParts, lineRaw, explicitSvcOf, absOrPct_abs_pos _ _ _ hS]

/-- Witness for c1_amended at a concrete hotel line. -/
theorem c1_amended_witness :
    0 < numF c1HotelIn.tax 0 ∧ 0 < pctF c1HotelIn.taxPct ∧
    0 < numF c1HotelIn.serviceCharges 0 ∧ 0 < pctF c1HotelIn.servicePct ∧
    (computeLineParts .HOTELS c1HotelIn).tax =
      round2 (explicitTaxOf .HOTELS c1HotelIn + numF c1HotelIn.tax 0) ∧
    (computeLineParts .HOTELS c1HotelIn).service =
      round2 (explicitSvcOf .HOTELS c1HotelIn + numF c1HotelIn.serviceCharges 0) := by
  have h1 : 0 < numF c1HotelIn.tax 0 := by norm_num [c1HotelIn, dNone, numF]
  have h2 : 0 < pctF c1HotelIn.taxPct := by norm_num [c1HotelIn, dNone, pctF]
  have h3 : 0 < numF c1HotelIn.serviceCharges 0 := by norm_num [c1HotelIn, dNone, numF]
  have h4 : 0 < pctF c1HotelIn.servicePct := by norm_num [c1HotelIn, dNone, pctF]
  exact ⟨h1, h2, h3, h4, (c1_amended .HOTELS c1HotelIn).1 h1 h2,
    (c1_amended .HOTELS c1HotelIn).2 h3 h4⟩

/-- Claim C2: for every category and record, the total returned by
computeLineParts equals the sum of the independently rounded base, tax and
service components, with no further rounding (the final round2 the source
applies to the sum is the identity on a sum of rounded components). -/
theorem c2_rounding_invariant (st : ServiceType) (d : LineDetails) :
    (computeLineParts st d).total =
      (computeLineParts st d).base + (computeLineParts st d).tax +
        (computeLineParts st d).service :=
  round2_sum_fix (lineRaw st d).1 (lineRaw st d).2.1 (lineRaw st d).2.2

/-- Claim C3, as stated, is false: a hotel line with rooms 2, nights 3,
rate 4500 and a supplied positive discount 1000 gets base 27000 from
computeLineParts, not 2 times 3 times 4500 minus 1000 = 26000; the result
is identical to the one for the same record without the discount, so the
discount does not reduce the hotel base. -/
theorem c3_counterexample :
    numF c3HotelIn.discount 0 = 1000 ∧
    (computeLineParts .HOTELS c3HotelIn).base = 27000 ∧
    computeLineParts .HOTELS c3HotelIn =
      computeLineParts .HOTELS { c3HotelIn with discount := none } ∧
    (27000 : ℚ) ≠ 2 * 3 * 4500 - 1000 := by
  refine ⟨by norm_num [c3HotelIn, dNone, numF], ?_, rfl, by norm_num⟩
  norm_num [c3HotelIn, dNone, computeLineParts, lineRaw, absOrPct, numF, pctF, round2]

/-- Claim C3 (amended): computeLineParts for the Hotel category returns a
base of round2(rooms times nights times rate) with rooms and nights
defaulting to 1 when missing or non-numeric; any supplied discount field
is ignored by the line calculator; the formula rooms times nights times
rate minus discount appears instead in the export-time per-item base of
computeAmounts in invoiceExports.ts. -/
theorem c3_amended (d : LineDetails) (q : Option ℚ) (it : ExportItem) :
    (computeLineParts .HOTELS d).base =
      round2 (numF d.rooms 1 * numF d.nights 1 * numF d.rate 0) ∧
    computeLineParts .HOTELS { d with discount := q } = computeLineParts .HOTELS d ∧
    (canonicalServiceTypeX it.serviceTypeRaw = "Hotel" →
      exportItemBase it =
        numF it.rooms 1 * numF it.nights 1 * numF it.rate 0 - numF it.discount 0) := by
  refine ⟨rfl, rfl, fun h => ?_⟩
  simp [exportItemBase, h]

/-- Witness for c3_amended at a concrete export hotel item. -/
theorem c3_amended_witness :
    canonicalServiceTypeX c3ExportItemIn.serviceTypeRaw = "Hotel" ∧
    exportItemBase c3ExportItemIn =
      numF c3ExportItemIn.rooms 1 * numF c3ExportItemIn.nights 1 *
        numF c3ExportItemIn.rate 0 - numF c3ExportItemIn.discount 0 := by
  have h : canonicalServiceTypeX c3ExportItemIn.serviceTypeRaw = "Hotel" := by decide
  exact ⟨h, (c3_amended dNone none c3ExportItemIn).2.2 h⟩

/-- Claim C4: the HistoryPage reconciliator applies the documented
consistency check.  When the first-pass totals mismatch the stored total
by more than 0.5, the reconciled subtotal prefers the line-item sum when
it is nonzero, and otherwise (items contributing nothing) the derived
total minus taxAmt minus svcAmt when that is nonzero; the mismatch test
can only decide the branch when the first-pass subtotal is nonzero,
because a zero first-pass subtotal takes the branch unconditionally and
yields the derived subtotal; and on Scenario D (header subtotal 0, three
items summing to 9000, total 10620, taxAmt 0, svcAmt 0) the reconciled
subtotal is 9000, taxAmt stays 0 (1620 is not auto-filled) and the total
stays 10620. -/
theorem c4_reconciliation (r : HistRow) :
    ((histSubtotal0 r = 0 ∨
        |histSubtotal0 r + histTaxAmt0 r + histSvcAmt0 r - histRawTotal r| > 1/2) →
      histSubtotalFromItems r ≠ 0 →
      (computeAmountsHist r).subtotal = histSubtotalFromItems r) ∧
    (|histSubtotal0 r + histTaxAmt0 r + histSvcAmt0 r - histRawTotal r| > 1/2 →
      histSubtotalFromItems r = 0 → histDerivedSubtotal r ≠ 0 →
      (computeAmountsHist r).subtotal = histDerivedSubtotal r) ∧
    (histSubtotal0 r = 0 → (computeAmountsHist r).subtotal = histDerivedSubtotal r) ∧
    ((computeAmountsHist c4RowIn).subtotal = 9000 ∧
      (computeAmountsHist c4RowIn).taxAmt = 0 ∧
      (computeAmountsHist c4RowIn).total = 10620) := by
  refine ⟨fun hc hs => ?_, fun hm hs hd => ?_, fun h0 => ?_, ?_⟩
  · show histSubtotalFinal r = _
    unfold histSubtotalFinal
    rw [if_pos hc, if_pos hs]
  · show histSubtotalFinal r = _
    unfold histSubtotalFinal
    rw [if_pos (Or.inr hm), if_neg (by simp [hs]), if_pos hd]
  · have hfi : histSubtotalFromItems r = 0 := by
      by_cases h : histSubtotalFromItems r = 0
      · exact h
      · exact absurd (by rw [histSubtotal0, if_pos h] at h0; exact h0) h
    have hraw : histRawSubtotal r = 0 := by
      rw [histSubtotal0, if_neg (by simp [hfi])] at h0
      exact h0
    show histSubtotalFinal r = _
    unfold histSubtotalFinal
    rw [if_pos (Or.inl h0), if_neg (by simp [hfi])]
    by_cases hd : histDerivedSubtotal r = 0
    · rw [if_neg (by simp [hd]), hraw, hd]
    · rw [if_pos hd]
  · norm_num [computeAmountsHist, histSubtotalFinal, histSubtotal0, histSubtotalFromItems,
      histItemBase, histRawSubtotal, histRawTaxAmt, histRawSvcAmt, histRawTotal,
      histTaxPctRaw, histSvcPctRaw, histTaxAmt0, histSvcAmt0, histDerivedSubtotal,
      numF, c4RowIn, rNoneHist, hItem3000]

/-- Witness for c4_reconciliation: Scenario D itself satisfies the
mismatch hypothesis with a nonzero line-item sum. -/
theorem c4_reconciliation_witness :
    (histSubtotal0 c4RowIn = 0 ∨
      |histSubtotal0 c4RowIn + histTaxAmt0 c4RowIn + histSvcAmt0 c4RowIn -
        histRawTotal c4RowIn| > 1/2) ∧
    histSubtotalFromItems c4RowIn ≠ 0 ∧
    (computeAmountsHist c4RowIn).subtotal = histSubtotalFromItems c4RowIn := by
  have h2 : histSubtotalFromItems c4RowIn ≠ 0 := by
    norm_num [histSubtotalFromItems, histItemBase, c4RowIn, rNoneHist, hItem3000, numF]
  have h1 : histSubtotal0 c4RowIn = 0 ∨
      |histSubtotal0 c4RowIn + histTaxAmt0 c4RowIn + histSvcAmt0 c4RowIn -
        histRawTotal c4RowIn| > 1/2 := by
    right
    norm_num [histSubtotal0, histSubtotalFromItems, histItemBase, histRawSubtotal,
      histRawTaxAmt, histRawSvcAmt, histRawTotal, histTaxPctRaw, histSvcPctRaw,
      histTaxAmt0, histSvcAmt0, numF, c4RowIn, rNoneHist, hItem3000]
  exact ⟨h1, h2, (c4_reconciliation c4RowIn).1 h1 h2⟩

/-- Claim C5: in the HistoryPage reconciliator, taxAmt and svcAmt equal
the alias-resolved stored absolute amounts when nonzero, else the stored
percentage applied to the reconciled subtotal when that percentage is
nonzero, else zero; and the total equals the alias-resolved stored grand
total when nonzero, else subtotal plus taxAmt plus svcAmt. -/
theorem c5_amount_fallbacks (r : HistRow) :
    (histRawTaxAmt r ≠ 0 → (computeAmountsHist r).taxAmt = histRawTaxAmt r) ∧
    (histRawTaxAmt r = 0 → histTaxPctRaw r ≠ 0 →
      (computeAmountsHist r).taxAmt = histTaxPctRaw r / 100 * (computeAmountsHist r).subtotal) ∧
    (histRawTaxAmt r = 0 → histTaxPctRaw r = 0 → (computeAmountsHist r).taxAmt = 0) ∧
    (histRawSvcAmt r ≠ 0 → (computeAmountsHist r).svcAmt = histRawSvcAmt r) ∧
    (histRawSvcAmt r = 0 → histSvcPctRaw r ≠ 0 →
      (computeAmountsHist r).svcAmt = histSvcPctRaw r / 100 * (computeAmountsHist r).subtotal) ∧
    (histRawSvcAmt r = 0 → histSvcPctRaw r = 0 → (computeAmountsHist r).svcAmt = 0) ∧
    (histRawTotal r ≠ 0 → (computeAmountsHist r).total = histRawTotal r) ∧
    (histRawTotal r = 0 →
      (computeAmountsHist r).total =
        (computeAmountsHist r).subtotal + (computeAmountsHist r).taxAmt +
          (computeAmountsHist r).svcAmt) := by
  refine ⟨fun h => by simp [computeAmountsHist, h],
    fun h h2 => by simp [computeAmountsHist, h, h2],
    fun h h2 => by simp [computeAmountsHist, h, h2],
    fun h => by simp [computeAmountsHist, h],
    fun h h2 => by simp [computeAmountsHist, h, h2],
    fun h h2 => by simp [computeAmountsHist, h, h2],
    fun h => by simp [computeAmountsHist, h],
    fun h => by simp [computeAmountsHist, h]⟩

/-- Witness for c5_amount_fallbacks: a header with a stored tax
percentage, a stored service amount and a stored total. -/
theorem c5_amount_fallbacks_witness :
    histRawTaxAmt c5RowIn = 0 ∧ histTaxPctRaw c5RowIn ≠ 0 ∧
    (computeAmountsHist c5RowIn).taxAmt =
      histTaxPctRaw c5RowIn / 100 * (computeAmountsHist c5RowIn).subtotal ∧
    histRawSvcAmt c5RowIn ≠ 0 ∧
    (computeAmountsHist c5RowIn).svcAmt = histRawSvcAmt c5RowIn ∧
    histRawTotal c5RowIn ≠ 0 ∧
    (computeAmountsHist c5RowIn).total = histRawTotal c5RowIn := by
  have h1 : histRawTaxAmt c5RowIn = 0 := by
    norm_num [histRawTaxAmt, c5RowIn, rNoneHist, numF]
  have h2 : histTaxPctRaw c5RowIn ≠ 0 := by
    norm_num [histTaxPctRaw, c5RowIn, rNoneHist, numF]
  have h3 : histRawSvcAmt c5RowIn ≠ 0 := by
    norm_num [histRawSvcAmt, c5RowIn, rNoneHist, numF]
  have h4 : histRawTotal c5RowIn ≠ 0 := by
    norm_num [histRawTotal, c5RowIn, rNoneHist, numF]
  exact ⟨h1, h2, (c5_amount_fallbacks c5RowIn).2.1 h1 h2, h3,
    (c5_amount_fallbacks c5RowIn).2.2.2.1 h3, h4,
    (c5_amount_fallbacks c5RowIn).2.2.2.2.2.2.1 h4⟩

/-- Claim C6: both canonical service-type classifiers are total and
deterministic functions into their fixed nine-category sets, and every
input matched by no alias or heuristic of the dashboard classifier
classifies as OTHER. -/
theorem c6_classifier_total :
    (∀ v : RawVal, canonicalServiceType v ∈
      ["FLIGHTS", "HOTELS", "HOLIDAYS", "VISAS", "MICE", "STATIONERY",
       "GIFT_ITEMS", "GOODIES", "OTHER"]) ∧
    (∀ v : RawVal, matchesSomeAlias v = false → canonicalServiceType v = "OTHER") ∧
    (∀ s : String, canonicalServiceTypeX s ∈
      ["Flight", "Hotel", "Holiday", "Visa", "MICE", "Stationary",
       "Gift Items", "Goodies", "Others"]) := by
  refine ⟨fun v => ?_, fun v h => ?_, fun s => ?_⟩
  · simp only [canonicalServiceType]
    repeat' apply mem_ite_of
    all_goals decide
  · unfold matchesSomeAlias at h
    simp only [Bool.or_eq_false_iff] at h
    simp only [canonicalServiceType]
    split_ifs <;> simp_all
  · simp only [canonicalServiceTypeX]
    repeat' apply mem_ite_of
    all_goals decide

/-- Witness for c6_classifier_total: the string zzz matches no alias and
classifies as OTHER. -/
theorem c6_classifier_total_witness :
    matchesSomeAlias (.str "zzz") = false ∧
    canonicalServiceType (.str "zzz") = "OTHER" := by
  have h : matchesSomeAlias (.str "zzz") = false := by decide
  exact ⟨h, c6_classifier_total.2.1 _ h⟩

/-- Claim C7, as stated, is false: the invoice number QUO-2025-001
exhibits none of the claim's signals (no metadata flag, no
proforma/performa match anywhere, and no prefix among QT-, QTN-, PI-,
PFI-, PF-), yet isProforma returns true, because the source also accepts
the quotation stem QUO followed by a separator. -/
theorem c7_counterexample :
    isProforma c7QuoIn = true ∧ claimedProformaSignals c7QuoIn = false := by
  constructor <;> decide

/-- Claim C7 (amended): isProforma returns true exactly when one of the
signals is present: the explicit metadata boolean flag, a
proforma/performa substring match on the lowercased status, document-kind
or doc-type fields (top-level or nested metadata), an invoice number
starting with one of the stems qt, qtn, quo, pi, pfi, pf followed by one
of the separators hyphen, underscore or slash, or a word-bounded
proforma/performa match inside the invoice number; with none of these
signals it returns false. -/
theorem c7_amended (inv : ProformaInv) :
    isProforma inv = true ↔
      (inv.metaIsProforma = true ∨
       testPerforma (sLower inv.status) = true ∨
       testPerforma (sLower inv.documentKind) = true ∨
       testPerforma (sLower inv.docType) = true ∨
       testPerforma (sLower inv.metaDocumentKind) = true ∨
       testPerforma (sLower inv.metaDocType) = true ∨
       testPfxNumber (sLower inv.invoiceNo) = true ∨
       testWordNumber (sLower inv.invoiceNo) = true) := by
  simp only [isProforma]
  split_ifs <;> simp_all

/-- Claim C8: for every invoice rendered by the proforma builder the GST
split satisfies cgstPct = sgstPct = round2(totalTaxPct / 2), and on
Scenario E (subtotal 10000, metadata gst cgst 900 and sgst 900) the
derivation yields totalTaxPct 18, cgstPct 9 and sgstPct 9. -/
theorem c8_gst_split :
    (∀ inv : PdfInvoiceDoc,
      (buildProformaTotals inv).cgstPct = round2 ((buildProformaTotals inv).totalTaxPct / 2) ∧
      (buildProformaTotals inv).sgstPct = round2 ((buildProformaTotals inv).totalTaxPct / 2)) ∧
    (buildProformaTotals c8DocE).totalTaxPct = 18 ∧
    (buildProformaTotals c8DocE).cgstPct = 9 ∧
    (buildProformaTotals c8DocE).sgstPct = 9 := by
  have he : pdfTotalTaxPct c8DocE = 18 := by
    norm_num [pdfTotalTaxPct, ttpSteps123, pdfSubTotal, pdfLineBase, c8DocE, numF, round2]
  refine ⟨fun inv => ⟨rfl, rfl⟩, ?_, ?_, ?_⟩
  · exact he
  · show round2 (pdfTotalTaxPct c8DocE / 2) = 9
    rw [he]; norm_num [round2]
  · show round2 (pdfTotalTaxPct c8DocE / 2) = 9
    rw [he]; norm_num [round2]

/-- Claim C9, as stated, is false on the export reconciler: for a header
whose only stored figure is an absolute tax amount and whose items are
empty, the reconciled subtotal is 0 and the emitted taxPct cell is the
number 0, not the empty / omitted cell the claim describes (the division
itself is indeed never performed). -/
theorem c9_counterexample :
    (computeAmountsExport c9HeaderIn []).subtotal = 0 ∧
    exportTaxPctCell c9HeaderIn [] = some 0 ∧
    claimedExportPctEmission (c9HeaderIn.taxPct <|> c9HeaderIn.taxPercent <|> c9HeaderIn.tax_percentage)
      (computeAmountsExport c9HeaderIn []).taxAmt
      (computeAmountsExport c9HeaderIn []).subtotal = none ∧
    (some (0 : ℚ)) ≠ none := by
  refine ⟨?_, ?_, ?_, by simp⟩ <;>
    norm_num [computeAmountsExport, exportTaxPctCell, claimedExportPctEmission,
      exportItemBase, c9HeaderIn, hNoneExport, numF]

/-- Claim C9 (amended): when the reconciled subtotal is zero the
percentage back-computation is never performed: the export reconciler
emits the stored percentage aliases or the number 0 (never a quotient,
Infinity or NaN), and the HistoryPage reconciler emits the empty cell
whenever no stored percentage alias is present. -/
theorem c9_amended :
    (∀ (inv : ExportHeader) (items : List ExportItem),
      (computeAmountsExport inv items).subtotal = 0 →
        (computeAmountsExport inv items).taxPct =
          numF (inv.taxPct <|> inv.taxPercent <|> inv.tax_percentage) 0 ∧
        (computeAmountsExport inv items).svcPct =
          numF (inv.svcPct <|> inv.servicePct <|> inv.servicePercent <|>
            inv.service_percentage) 0) ∧
    (∀ r : HistRow, histTaxPctRaw r = 0 → (computeAmountsHist r).taxPct = none) ∧
    (∀ r : HistRow, histSvcPctRaw r = 0 → (computeAmountsHist r).svcPct = none) := by
  refine ⟨fun inv items h => ?_, fun r h => by simp [computeAmountsHist, h],
    fun r h => by simp [computeAmountsHist, h]⟩
  simp only [computeAmountsExport] at h ⊢
  rw [h]
  simp

/-- Witness for c9_amended: the zero-subtotal export header and the empty
history row. -/
theorem c9_amended_witness :
    (computeAmountsExport c9HeaderIn []).subtotal = 0 ∧
    (computeAmountsExport c9HeaderIn []).taxPct =
      numF (c9HeaderIn.taxPct <|> c9HeaderIn.taxPercent <|> c9HeaderIn.tax_percentage) 0 ∧
    histTaxPctRaw rNoneHist = 0 ∧
    (computeAmountsHist rNoneHist).taxPct = none := by
  have h1 : (computeAmountsExport c9HeaderIn []).subtotal = 0 := by
    norm_num [computeAmountsExport, exportItemBase, c9HeaderIn, hNoneExport, numF]
  have h2 : histTaxPctRaw rNoneHist = 0 := by
    norm_num [histTaxPctRaw, rNoneHist, numF]
  exact ⟨h1, (c9_amended.1 c9HeaderIn [] h1).1, h2, c9_amended.2.1 rNoneHist h2⟩

/-- Claim C10, as stated, is false: the rendered proforma grand total is
recomputed as round2(subTotal + cgstTotal + sgstTotal), but the stored
grandTotal and serviceCharges fields do enter it through the final
fallback of the tax-percentage derivation: two invoices identical except
for the stored grandTotal (1180 versus 1000) render different totals
(1180 versus 1000), and changing only the stored serviceCharges from 0 to
180 changes the rendered total from 1180 to 1000. -/
theorem c10_counterexample :
    (buildProformaTotals c10DocA).grandTotal = 1180 ∧
    (buildProformaTotals c10DocB).grandTotal = 1000 ∧
    (buildProformaTotals c10DocC).grandTotal = 1000 ∧
    c10DocB = { c10DocA with grandTotal := 1000 } ∧
    c10DocC = { c10DocA with serviceCharges := 180 } ∧
    (1180 : ℚ) ≠ 1000 := by
  refine ⟨?_, ?_, ?_, rfl, rfl, by norm_num⟩ <;>
    norm_num [buildProformaTotals, pdfTotalTaxPct, ttpSteps123, pdfSubTotal, pdfLineBase,
      pdfDetailsNone, c10DocA, c10DocB, c10DocC, numF, round2]

/-- Claim C10 (amended): the rendered proforma grand total always equals
round2(subTotal + cgstTotal + sgstTotal) with each tax half equal to
round2(subTotal times the split percentage over 100) — service charges
are never an additive component — and the stored grandTotal and
serviceCharges fields enter only through the final fallback of the
percentage derivation: whenever one of the earlier derivation steps
succeeds, changing those two stored fields cannot change any rendered
total. -/
theorem c10_amended :
    (∀ inv : PdfInvoiceDoc,
      (buildProformaTotals inv).grandTotal =
        round2 ((buildProformaTotals inv).subTotal + (buildProformaTotals inv).cgstTotal +
          (buildProformaTotals inv).sgstTotal) ∧
      (buildProformaTotals inv).cgstTotal =
        round2 ((buildProformaTotals inv).subTotal * (buildProformaTotals inv).cgstPct / 100) ∧
      (buildProformaTotals inv).sgstTotal =
        round2 ((buildProformaTotals inv).subTotal * (buildProformaTotals inv).sgstPct / 100)) ∧
    (∀ (inv : PdfInvoiceDoc) (g1 s1 g2 s2 : ℚ),
      (ttpSteps123 inv).isSome →
      buildProformaTotals { inv with grandTotal := g1, serviceCharges := s1 } =
        buildProformaTotals { inv with grandTotal := g2, serviceCharges := s2 }) := by
  refine ⟨fun inv => ⟨rfl, rfl, rfl⟩, fun inv g1 s1 g2 s2 h => ?_⟩
  obtain ⟨t, ht⟩ := Option.isSome_iff_exists.mp h
  have e1 : ttpSteps123 { inv with grandTotal := g1, serviceCharges := s1 } =
      ttpSteps123 inv := rfl
  have e2 : ttpSteps123 { inv with grandTotal := g2, serviceCharges := s2 } =
      ttpSteps123 inv := rfl
  have s1e : pdfSubTotal { inv with grandTotal := g1, serviceCharges := s1 } =
      pdfSubTotal inv := rfl
  have s2e : pdfSubTotal { inv with grandTotal := g2, serviceCharges := s2 } =
      pdfSubTotal inv := rfl
  simp only [buildProformaTotals, pdfTotalTaxPct, e1, e2, s1e, s2e, ht]

/-- Witness for c10_amended: an invoice whose percentage derivation is
fixed by metadata GST amounts. -/
theorem c10_amended_witness :
    (ttpSteps123 c10DocD).isSome = true ∧
    buildProformaTotals { c10DocD with grandTotal := 1, serviceCharges := 2 } =
      buildProformaTotals { c10DocD with grandTotal := 3, serviceCharges := 4 } := by
  have h : (ttpSteps123 c10DocD).isSome = true := by
    norm_num [ttpSteps123, pdfSubTotal, pdfLineBase, c10DocD, numF]
  exact ⟨h, c10_amended.2 c10DocD 1 2 3 4 h⟩

end Invoices
